import Mathlib

/-!
Shallow embedding of the Hedera Agent Economy backend (src/main.py) and
verification of its specification.

Modelling conventions:
* Python floats holding currency amounts are modelled as exact rationals (ℚ);
  Python's `round(x, 4)` becomes `round4`, round-to-nearest with ties to even
  (banker's rounding, Python's documented behaviour) at 4 fractional digits.
* Python ints are `Nat` where the source only ever increments them, `Int` where
  a caller may pass negatives (the `limit` query parameters).
* The module-level mutable globals (`AGENTS`, `MESSAGES`, `TRANSACTIONS`,
  `_tasks_completed`, `_total_hbar_settled`) form one explicit state record
  `EconomyState`; handlers become functions taking and returning the state.
* Sources of nondeterminism consumed by `submit_task` (uuid4 suffixes, the
  wall-clock second, `random.randint` draws, the ISO timestamp string) are
  packaged as an explicit `Env` input.
* Python list slicing `xs[-limit:]` is modelled by `pySliceFrom xs (-limit)`
  with Python's exact index semantics, including `xs[-0:] = xs`.
-/

/-- Python `round(q, 4)` on the ideal (rational) value: round `q` to 4 decimal
digits, ties to the even multiple. -/
def round4 (q : ℚ) : ℚ :=
  ((if q * 10000 - ⌊q * 10000⌋ < 1/2 then ⌊q * 10000⌋
    else if 1/2 < q * 10000 - ⌊q * 10000⌋ then ⌊q * 10000⌋ + 1
    else if ⌊q * 10000⌋ % 2 = 0 then ⌊q * 10000⌋ else ⌊q * 10000⌋ + 1 : ℤ) : ℚ)
    / 10000

/-- An agent record, mirroring the dict shape of the `AGENTS` entries. -/
structure Agent where
  agent_id : String
  agent_type : String
  name : String
  skills : List String
  hbar_balance : ℚ
  tasks_completed : Nat
  earnings_hbar : ℚ
  status : String
  registered_at : String
deriving DecidableEq, Inhabited

/-- A value in a message payload dict (`str`, number, or list of strings cover
every payload the program builds). -/
inductive PayloadVal where
  | str (s : String)
  | num (q : ℚ)
  | strList (l : List String)
deriving DecidableEq

/-- A consensus-log message, mirroring the dict shape of `MESSAGES` entries. -/
structure Message where
  id : String
  topic : String
  sender : String
  message_type : String
  payload : List (String × PayloadVal)
  consensus_timestamp : String
  tx_id : String
deriving DecidableEq

/-- A settlement transaction, mirroring the dict shape of `TRANSACTIONS`. -/
structure Transaction where
  task_id : String
  worker_id : String
  amount_hbar : ℚ
  tx_id : String
  duration_ms : Nat
  timestamp : Nat
  mock : Bool
deriving DecidableEq

/-- The whole mutable module state of src/main.py. -/
structure EconomyState where
  agents : List Agent
  messages : List Message
  transactions : List Transaction
  tasks_completed : Nat
  total_hbar_settled : ℚ
deriving DecidableEq

/-- The `AGENTS` seed list. -/
def AGENTS : List Agent :=
  [ { agent_id := "registry-001", agent_type := "registry",
      name := "Registry Agent",
      skills := ["discover", "register", "lookup"],
      hbar_balance := 50.0, tasks_completed := 142, earnings_hbar := 28.4,
      status := "idle", registered_at := "2026-02-24T10:00:00Z" },
    { agent_id := "broker-001", agent_type := "broker",
      name := "Broker Agent",
      skills := ["match", "negotiate", "route"],
      hbar_balance := 75.2, tasks_completed := 138, earnings_hbar := 55.1,
      status := "busy", registered_at := "2026-02-24T10:00:00Z" },
    { agent_id := "worker-summarizer", agent_type := "worker",
      name := "Summarizer Worker",
      skills := ["summarize", "tldr", "abstract"],
      hbar_balance := 22.5, tasks_completed := 89, earnings_hbar := 44.5,
      status := "idle", registered_at := "2026-02-24T10:00:00Z" },
    { agent_id := "worker-code-reviewer", agent_type := "worker",
      name := "Code Reviewer Worker",
      skills := ["review", "lint", "security-scan"],
      hbar_balance := 31.0, tasks_completed := 67, earnings_hbar := 67.0,
      status := "idle", registered_at := "2026-02-24T10:00:00Z" },
    { agent_id := "worker-data-analyst", agent_type := "worker",
      name := "Data Analyst Worker",
      skills := ["analyze", "stats", "chart"],
      hbar_balance := 18.7, tasks_completed := 54, earnings_hbar := 40.5,
      status := "busy", registered_at := "2026-02-24T10:00:00Z" },
    { agent_id := "settlement-001", agent_type := "settlement",
      name := "Settlement Agent",
      skills := ["settle", "transfer", "audit"],
      hbar_balance := 200.0, tasks_completed := 308, earnings_hbar := 15.4,
      status := "idle", registered_at := "2026-02-24T10:00:00Z" } ]

/-- The `MESSAGES` seed list. -/
def MESSAGES : List Message :=
  [ { id := "msg-001", topic := "agent-registry", sender := "registry-001",
      message_type := "agent_registered",
      payload := [("agent_id", .str "worker-summarizer"),
                  ("skills", .strList ["summarize", "tldr"])],
      consensus_timestamp := "2026-02-24T10:00:00Z",
      tx_id := "0.0.5483526@1708765200.000000000" },
    { id := "msg-002", topic := "task-negotiation", sender := "broker-001",
      message_type := "task_assigned",
      payload := [("task_id", .str "task-abc"),
                  ("worker", .str "worker-summarizer"),
                  ("budget_hbar", .num 0.5)],
      consensus_timestamp := "2026-02-24T10:01:00Z",
      tx_id := "0.0.5483526@1708765260.000000000" },
    { id := "msg-003", topic := "settlement", sender := "settlement-001",
      message_type := "payment_settled",
      payload := [("task_id", .str "task-abc"),
                  ("amount_hbar", .num 0.5),
                  ("tx_id", .str "0.0.5483526@1708765200.000000000")],
      consensus_timestamp := "2026-02-24T10:02:00Z",
      tx_id := "0.0.5483526@1708765320.000000000" } ]

/-- The `TRANSACTIONS` seed list. -/
def TRANSACTIONS : List Transaction :=
  [ { task_id := "task-abc", worker_id := "worker-summarizer",
      amount_hbar := 0.5, tx_id := "0.0.5483526@1708765200.000000000",
      duration_ms := 312, timestamp := 1708765200, mock := true },
    { task_id := "task-def", worker_id := "worker-code-reviewer",
      amount_hbar := 1.0, tx_id := "0.0.5483526@1708765260.000000000",
      duration_ms := 428, timestamp := 1708765260, mock := true },
    { task_id := "task-ghi", worker_id := "worker-data-analyst",
      amount_hbar := 0.75, tx_id := "0.0.5483526@1708765320.000000000",
      duration_ms := 389, timestamp := 1708765320, mock := true } ]

/-- `HCS_TOPICS`. -/
def HCS_TOPICS : List (String × String) :=
  [("agent-registry", "0.0.5483527"),
   ("task-negotiation", "0.0.5483528"),
   ("settlement", "0.0.5483529")]

/-- The module state right after import: the seed lists together with the
seeded counters `_tasks_completed = sum(a["tasks_completed"] for a in AGENTS)`
and `_total_hbar_settled = sum(t["amount_hbar"] for t in TRANSACTIONS)`. -/
def initState : EconomyState :=
  { agents := AGENTS
    messages := MESSAGES
    transactions := TRANSACTIONS
    tasks_completed := (AGENTS.map (fun a => a.tasks_completed)).sum
    total_hbar_settled := (TRANSACTIONS.map (fun t => t.amount_hbar)).sum }

/-- The body of a `POST /tasks/submit` request (`TaskRequest`). -/
structure TaskRequest where
  task_type : String
  payload : String
  budget_hbar : ℚ
deriving DecidableEq

/-- The nondeterministic inputs one `submit_task` call consumes: the two uuid4
suffixes, the wall-clock unix second `ts`, the ISO timestamp string for the
appended message, `random.randint(280, 650)` for the duration and
`random.randint(100, 500)` / `random.randint(10, 50)` for the fake analysis
statistics. -/
structure Env where
  taskSuffix : String
  msgSuffix : String
  ts : Nat
  nowStr : String
  duration : Nat
  mean : Nat
  sigma : Nat
deriving DecidableEq

/-- The `skill_map` dict in `submit_task`. -/
def skill_map : List (String × String) :=
  [("summarize", "worker-summarizer"),
   ("tldr", "worker-summarizer"),
   ("abstract", "worker-summarizer"),
   ("review", "worker-code-reviewer"),
   ("lint", "worker-code-reviewer"),
   ("security-scan", "worker-code-reviewer"),
   ("analyze", "worker-data-analyst"),
   ("stats", "worker-data-analyst"),
   ("chart", "worker-data-analyst")]

/-- `skill_map.get(task_type, "worker-summarizer")`. -/
def routeTask (task_type : String) : String :=
  (skill_map.lookup task_type).getD ("worker-summarizer")

/-- The `result_map` lookup with its generic fallback: the synthesized result
text for a task. `mean` and `sigma` stand for the two randint draws. -/
def resultText (task_type payload : String) (mean sigma : Nat) : String :=
  if task_type = "summarize" then
    "Summary: " ++ payload.take 120 ++
      "… [AI condensed to 3 key points via HCS-verified consensus]"
  else if task_type = "review" then
    "Code Review: 0 critical issues detected. 2 style suggestions. Reentrancy pattern flagged for: "
      ++ payload.take 80
  else if task_type = "analyze" then
    "Analysis complete: Dataset shows upward trend. Mean=" ++ toString mean ++
      ", σ=" ++ toString sigma ++ ". Confidence: 94%"
  else
    "Task completed: " ++ payload.take 100

/-- The simulated transaction reference id built from the wall-clock second:
`f"0.0.5483526@\x7bts\x7d.000000000"`. -/
def mkTxId (ts : Nat) : String :=
  "0.0.5483526@" ++ toString ts ++ ".000000000"

/-- The receipt dict returned by `submit_task`. -/
structure Receipt where
  task_id : String
  status : String
  result : String
  cost_hbar : ℚ
  duration_ms : Nat
  assigned_to : String
  tx_id : String
  hcs_sequence : Nat
deriving DecidableEq

/-- `\x7b a with tasks_completed += 1; earnings_hbar := round(earnings + b, 4) \x7d`:
the in-place update `submit_task` applies to the resolved worker record. -/
def bumpWorker (b : ℚ) (a : Agent) : Agent :=
  { a with tasks_completed := a.tasks_completed + 1
           earnings_hbar := round4 (a.earnings_hbar + b) }

/-- Replace the first element satisfying `p` by its image under `f` (the
in-place mutation of the first matching list entry). -/
def updateFirst (p : Agent → Bool) (f : Agent → Agent) : List Agent → List Agent
  | [] => []
  | a :: rest => if p a then f a :: rest else a :: updateFirst p f rest

/-- `next((a for a in AGENTS if a["agent_id"] == wid), AGENTS[2])`: first agent
with the given id, else the agent at index 2. (Python would raise IndexError
on a registry shorter than 3; agents are never removed, so that branch is
unreachable and is modelled by `default`.) -/
def lookupWorker (agents : List Agent) (wid : String) : Agent :=
  match agents.find? (fun a => a.agent_id == wid) with
  | some a => a
  | none => agents.getD 2 default

/-- The registry after `submit_task`'s in-place worker update: the first agent
whose id matches is bumped; when none matches, the Python variable `worker`
aliases `AGENTS[2]`, so the record at index 2 is bumped. -/
def updateWorker (agents : List Agent) (wid : String) (b : ℚ) : List Agent :=
  if (agents.find? (fun a => a.agent_id == wid)).isSome then
    updateFirst (fun a => a.agent_id == wid) (bumpWorker b) agents
  else
    agents.set 2 (bumpWorker b (agents.getD 2 default))

/-- `submit_task(req)`: route the task, synthesize the result, update the two
cumulative counters and the worker record, append one transaction and one
message, and return the receipt. `worker["name"]` is read from the updated
registry (the Python variable aliases the mutated dict; the update never
touches `name`). `hcs_sequence = 1000 + len(MESSAGES)` is computed after the
append. -/
def submit (req : TaskRequest) (env : Env) (s : EconomyState) :
    Receipt × EconomyState :=
  let task_id := "task-" ++ env.taskSuffix
  let assigned_worker_id := routeTask req.task_type
  let result_text := resultText req.task_type req.payload env.mean env.sigma
  let tx_id := mkTxId env.ts
  let agents2 := updateWorker s.agents assigned_worker_id req.budget_hbar
  let worker := lookupWorker agents2 assigned_worker_id
  let newTx : Transaction :=
    { task_id := task_id, worker_id := assigned_worker_id,
      amount_hbar := req.budget_hbar, tx_id := tx_id,
      duration_ms := env.duration, timestamp := env.ts, mock := true }
  let newMsg : Message :=
    { id := "msg-" ++ env.msgSuffix, topic := "task-negotiation",
      sender := "broker-001", message_type := "task_completed",
      payload := [("task_id", .str task_id),
                  ("worker", .str assigned_worker_id),
                  ("result", .str (result_text.take 80))],
      consensus_timestamp := env.nowStr, tx_id := tx_id }
  let s2 : EconomyState :=
    { agents := agents2
      messages := s.messages ++ [newMsg]
      transactions := s.transactions ++ [newTx]
      tasks_completed := s.tasks_completed + 1
      total_hbar_settled := round4 (s.total_hbar_settled + req.budget_hbar) }
  ({ task_id := task_id, status := "completed", result := result_text,
     cost_hbar := req.budget_hbar, duration_ms := env.duration,
     assigned_to := worker.name, tx_id := tx_id,
     hcs_sequence := 1000 + s2.messages.length }, s2)

/-- A sequence of `submit_task` calls, threading the state. -/
def submitMany (reqs : List (TaskRequest × Env)) (s : EconomyState) :
    EconomyState :=
  reqs.foldl (fun st p => (submit p.1 p.2 st).2) s

/-- The aggregate returned by `run_demo`. -/
structure DemoResult where
  demo : String
  tasks_executed : Nat
  total_hbar_spent : ℚ
  results : List Receipt
deriving DecidableEq

/-- The three fixed `demo_tasks` of `run_demo`. -/
def demoTask1 : TaskRequest :=
  { task_type := "summarize"
    payload := "Summarize the Hedera whitepaper key points on hashgraph consensus"
    budget_hbar := 0.5 }

/-- Second fixed demo task. -/
def demoTask2 : TaskRequest :=
  { task_type := "review"
    payload := "Review this Solidity contract for reentrancy vulnerabilities"
    budget_hbar := 1.0 }

/-- Third fixed demo task. -/
def demoTask3 : TaskRequest :=
  { task_type := "analyze"
    payload := "Analyze daily active users trend: [120,145,132,178,201,189,224]"
    budget_hbar := 0.75 }

/-- `run_demo()`: submit the three fixed demo tasks in order and aggregate the
receipts. `total_hbar_spent = sum(r["cost_hbar"] for r in results)`. -/
def runDemo (e1 e2 e3 : Env) (s : EconomyState) : DemoResult × EconomyState :=
  let p1 := submit demoTask1 e1 s
  let p2 := submit demoTask2 e2 p1.2
  let p3 := submit demoTask3 e3 p2.2
  ({ demo := "complete", tasks_executed := [p1.1, p2.1, p3.1].length,
     total_hbar_spent := p1.1.cost_hbar + p2.1.cost_hbar + p3.1.cost_hbar,
     results := [p1.1, p2.1, p3.1] }, p3.2)

/-- Python `xs[i:]` for an arbitrary integer start index `i`: a negative `i`
counts from the end (clamped to the head of the list), a non-negative `i`
drops the first `i` elements (clamped to the length). Note `(-0 : Int) = 0`. -/
def pySliceFrom (xs : List α) (i : Int) : List α :=
  xs.drop (if i < 0 then (max ((xs.length : Int) + i) 0).toNat
           else min i.toNat xs.length)

/-- `GET /messages?limit=L` — the handler computes `MESSAGES[-limit:]` and the
total log length. -/
def getMessages (s : EconomyState) (limit : Int) : List Message × Nat :=
  (pySliceFrom s.messages (-limit), s.messages.length)

/-- `GET /transactions?limit=L` — `TRANSACTIONS[-limit:]` plus the total. -/
def getTransactions (s : EconomyState) (limit : Int) :
    List Transaction × Nat :=
  (pySliceFrom s.transactions (-limit), s.transactions.length)

/-- The `stats` sub-dict of an economy snapshot. -/
structure Stats where
  tasks_completed : Nat
  total_hbar_settled : ℚ
  active_agents : Nat
  total_agents : Nat
  topics : List (String × String)
deriving DecidableEq

/-- The full snapshot (`EconomySnapshot` of the frontend contract). -/
structure EconomySnapshot where
  agents : List Agent
  messages : List Message
  transactions : List Transaction
  stats : Stats
  timestamp : String
deriving DecidableEq

/-- `_economy_snapshot()`: the pure read building the snapshot dict. It is a
read-only handler, so it is modelled as returning the state unchanged next to
the view (`nowStr` stands for `_now()`). -/
def economySnapshot (nowStr : String) (s : EconomyState) :
    EconomySnapshot × EconomyState :=
  ({ agents := s.agents
     messages := pySliceFrom s.messages (-50)
     transactions := pySliceFrom s.transactions (-20)
     stats := { tasks_completed := s.tasks_completed
                total_hbar_settled := round4 s.total_hbar_settled
                active_agents :=
                  (s.agents.filter (fun a => a.status == "busy")).length
                total_agents := s.agents.length
                topics := HCS_TOPICS }
     timestamp := nowStr }, s)

/-- The state-mutating operations of the system. Every other route handler
(`/health`, `/state`, `/agents`, `/messages`, `/transactions`, `/stats`,
`/feed`) only reads the module state. -/
inductive Op where
  | submitTask (req : TaskRequest) (env : Env)
  | demoRun (e1 e2 e3 : Env)

/-- The state transition an operation performs. -/
def Op.apply : Op → EconomyState → EconomyState
  | .submitTask req env, s => (submit req env s).2
  | .demoRun e1 e2 e3, s => (runDemo e1 e2 e3 s).2

/-- The budgets an operation settles: the request budget for a submission, the
three fixed demo budgets for `run_demo`. -/
def Op.budgets : Op → List ℚ
  | .submitTask req _ => [req.budget_hbar]
  | .demoRun _ _ _ => [0.5, 1.0, 0.75]

/-- An exact 4-decimal value (an integer number of 0.0001 units) — the shape
every value produced by `round4` has. -/
def IsGrid4 (q : ℚ) : Prop := ∃ m : ℤ, q = (m : ℚ) / 10000

/-- The rounded running sum of the transaction log amounts, folding
`round(acc + amount, 4)` from 0 — the incremental discipline the code uses to
maintain `_total_hbar_settled`. -/
def runningRoundSum (txs : List Transaction) : ℚ :=
  txs.foldl (fun acc t => round4 (acc + t.amount_hbar)) 0

/-- Index-wise evolution of the agent registry across an operation: same
length, unchanged ids, non-decreasing tasks-completed counters, preservation
of exact 4-decimal earnings, and — under the side condition `P` (the
operation's budgets being non-negative) — non-decreasing earnings for agents
whose earnings are exact 4-decimal values. -/
def AgentsEvolve (P : Prop) (ags ags' : List Agent) : Prop :=
  ags'.length = ags.length ∧
  ∀ (i : Nat) (a a' : Agent), ags[i]? = some a → ags'[i]? = some a' →
    a'.agent_id = a.agent_id ∧
    a.tasks_completed ≤ a'.tasks_completed ∧
    (IsGrid4 a.earnings_hbar → IsGrid4 a'.earnings_hbar) ∧
    (P → IsGrid4 a.earnings_hbar → a.earnings_hbar ≤ a'.earnings_hbar)

/-- A concrete environment used for witnesses and counterexamples. -/
def env0 : Env :=
  { taskSuffix := "aaaabbbb", msgSuffix := "ccdde1", ts := 1760000000
    nowStr := "2026-10-12T00:00:00+00:00", duration := 400, mean := 250
    sigma := 25 }

/-- The example submission of the spec: summarize, budget 0.5. -/
def req0 : TaskRequest :=
  { task_type := "summarize", payload := "The quick brown fox"
    budget_hbar := 0.5 }

/-- A submission with a negative budget. -/
def negReq : TaskRequest :=
  { task_type := "summarize", payload := "x", budget_hbar := -1 }

/-- A valid (non-negative) submission whose budget has more than 4 decimal
digits. -/
def smallReq : TaskRequest :=
  { task_type := "summarize", payload := "x", budget_hbar := 6/100000 }

/-- The seeded summarizer worker record (`AGENTS[2]`). -/
def summarizerSeed : Agent := AGENTS.getD 2 default

/-- Evaluation rule for `round4` when the fractional part is below one half. -/
theorem round4_of_lt (q : ℚ) (f : ℤ) (h1 : ⌊q * 10000⌋ = f)
    (h2 : q * 10000 - f < 1/2) : round4 q = (f : ℚ) / 10000 := by
  unfold round4
  rw [h1, if_pos h2]

/-- Evaluation rule for `round4` when the fractional part is above one half. -/
theorem round4_of_gt (q : ℚ) (f : ℤ) (h1 : ⌊q * 10000⌋ = f)
    (h2 : 1/2 < q * 10000 - f) : round4 q = ((f : ℚ) + 1) / 10000 := by
  unfold round4
  rw [h1, if_neg (by linarith), if_pos h2]
  norm_cast

/-- `round4` fixes every exact 4-decimal value. -/
theorem round4_grid (m : ℤ) : round4 ((m : ℚ) / 10000) = (m : ℚ) / 10000 := by
  have hm : ((m : ℚ) / 10000) * 10000 = (m : ℚ) := by
    field_simp
  have h1 : ⌊((m : ℚ) / 10000) * 10000⌋ = m := by
    rw [hm, Int.floor_intCast]
  rw [round4_of_lt _ m h1 (by rw [hm]; norm_num)]

/-- `round4` never drops below an exact 4-decimal lower bound: rounding to the
nearest grid point cannot cross a grid point lying below the argument. -/
theorem round4_ge_grid (m : ℤ) (x : ℚ) (h : (m : ℚ) / 10000 ≤ x) :
    (m : ℚ) / 10000 ≤ round4 x := by
  have hfloor : m ≤ ⌊x * 10000⌋ := by
    apply Int.le_floor.mpr
    linarith
  have hn : (m : ℚ) ≤
      ((if x * 10000 - ⌊x * 10000⌋ < 1/2 then ⌊x * 10000⌋
        else if 1/2 < x * 10000 - ⌊x * 10000⌋ then ⌊x * 10000⌋ + 1
        else if ⌊x * 10000⌋ % 2 = 0 then ⌊x * 10000⌋ else ⌊x * 10000⌋ + 1 : ℤ) : ℚ) := by
    have hm : (m : ℚ) ≤ ((⌊x * 10000⌋ : ℤ) : ℚ) := by exact_mod_cast hfloor
    split
    case isTrue => exact hm
    case isFalse =>
      split
      case isTrue => push_cast; linarith
      case isFalse =>
        split
        case isTrue => exact hm
        case isFalse => push_cast; linarith
  unfold round4
  exact (div_le_div_iff_of_pos_right (by norm_num)).mpr hn


/-- `submit_task` returns status `"completed"`. -/
theorem submit_receipt_status (req : TaskRequest) (env : Env) (s : EconomyState) :
    (submit req env s).1.status = "completed" := rfl

/-- The receipt cost is exactly the submitted budget. -/
theorem submit_receipt_cost (req : TaskRequest) (env : Env) (s : EconomyState) :
    (submit req env s).1.cost_hbar = req.budget_hbar := rfl

/-- The receipt duration is the randint draw. -/
theorem submit_receipt_duration (req : TaskRequest) (env : Env) (s : EconomyState) :
    (submit req env s).1.duration_ms = env.duration := rfl

/-- The receipt reference id is derived from the wall-clock second only. -/
theorem submit_receipt_txid (req : TaskRequest) (env : Env) (s : EconomyState) :
    (submit req env s).1.tx_id = mkTxId env.ts := rfl

/-- The receipt `assigned_to` is the display name of the worker record looked
up in the updated registry. -/
theorem submit_receipt_assigned (req : TaskRequest) (env : Env) (s : EconomyState) :
    (submit req env s).1.assigned_to =
      (lookupWorker
        (updateWorker s.agents (routeTask req.task_type) req.budget_hbar)
        (routeTask req.task_type)).name := rfl

/-- The completed-tasks counter is incremented by one. -/
theorem submit_state_tasks (req : TaskRequest) (env : Env) (s : EconomyState) :
    (submit req env s).2.tasks_completed = s.tasks_completed + 1 := rfl

/-- The settled-value counter update: add the budget, then round to 4 digits. -/
theorem submit_state_total (req : TaskRequest) (env : Env) (s : EconomyState) :
    (submit req env s).2.total_hbar_settled =
      round4 (s.total_hbar_settled + req.budget_hbar) := rfl

/-- The registry after a submission. -/
theorem submit_state_agents (req : TaskRequest) (env : Env) (s : EconomyState) :
    (submit req env s).2.agents =
      updateWorker s.agents (routeTask req.task_type) req.budget_hbar := rfl

/-- Exactly one transaction is appended, and its fields. -/
theorem submit_state_transactions (req : TaskRequest) (env : Env) (s : EconomyState) :
    (submit req env s).2.transactions = s.transactions ++
      [{ task_id := "task-" ++ env.taskSuffix
         worker_id := routeTask req.task_type
         amount_hbar := req.budget_hbar
         tx_id := mkTxId env.ts
         duration_ms := env.duration
         timestamp := env.ts
         mock := true }] := rfl

/-- Exactly one message is appended, and its fields. -/
theorem submit_state_messages (req : TaskRequest) (env : Env) (s : EconomyState) :
    (submit req env s).2.messages = s.messages ++
      [{ id := "msg-" ++ env.msgSuffix
         topic := "task-negotiation"
         sender := "broker-001"
         message_type := "task_completed"
         payload := [("task_id", .str ("task-" ++ env.taskSuffix)),
                     ("worker", .str (routeTask req.task_type)),
                     ("result", .str ((resultText req.task_type req.payload
                        env.mean env.sigma).take 80))]
         consensus_timestamp := env.nowStr
         tx_id := mkTxId env.ts }] := rfl

/-- `xs[i:]` for a negative start `-L` keeps the last `min L (length xs)`
elements, i.e. drops `length - min L length`. -/
theorem pySliceFrom_neg (xs : List α) (L : Nat) (hL : 0 < L) :
    pySliceFrom xs (-(L : Int)) =
      xs.drop (xs.length - min L xs.length) := by
  unfold pySliceFrom
  rw [if_pos (by omega)]
  congr 1
  omega

/-- `xs[0:]` is the whole list. -/
theorem pySliceFrom_zero (xs : List α) : pySliceFrom xs 0 = xs := by
  unfold pySliceFrom
  rw [if_neg (by omega)]
  simp

/-- `xs[i:]` for a positive start drops the first `min i (length xs)`
elements. -/
theorem pySliceFrom_pos (xs : List α) (i : Int) (hi : 0 < i) :
    pySliceFrom xs i = xs.drop (min i.toNat xs.length) := by
  unfold pySliceFrom
  rw [if_neg (by omega)]

/-- C5: the skill router is a pure deterministic function of the task-type
string: every task type of the known skill map routes to the fixed worker of
its skill cluster (summarize/tldr/abstract to the summarizer, review/lint/
security-scan to the code reviewer, analyze/stats/chart to the data analyst),
and every task type outside the map routes to the fallback summarizer instead
of failing. -/
theorem c5_skill_router :
    (routeTask ("summarize") = "worker-summarizer" ∧
     routeTask ("tldr") = "worker-summarizer" ∧
     routeTask ("abstract") = "worker-summarizer" ∧
     routeTask ("review") = "worker-code-reviewer" ∧
     routeTask ("lint") = "worker-code-reviewer" ∧
     routeTask ("security-scan") = "worker-code-reviewer" ∧
     routeTask ("analyze") = "worker-data-analyst" ∧
     routeTask ("stats") = "worker-data-analyst" ∧
     routeTask ("chart") = "worker-data-analyst") ∧
    ∀ t : String,
      t ∉ ["summarize", "tldr", "abstract", "review", "lint", "security-scan",
           "analyze", "stats", "chart"] →
      routeTask t = "worker-summarizer" := by
  refine ⟨by decide, ?_⟩
  intro t ht
  simp only [List.mem_cons, List.not_mem_nil, or_false, not_or] at ht
  obtain ⟨h1, h2, h3, h4, h5, h6, h7, h8, h9⟩ := ht
  have e1 : (t == "summarize") = false := beq_eq_false_iff_ne.mpr h1
  have e2 : (t == "tldr") = false := beq_eq_false_iff_ne.mpr h2
  have e3 : (t == "abstract") = false := beq_eq_false_iff_ne.mpr h3
  have e4 : (t == "review") = false := beq_eq_false_iff_ne.mpr h4
  have e5 : (t == "lint") = false := beq_eq_false_iff_ne.mpr h5
  have e6 : (t == "security-scan") = false := beq_eq_false_iff_ne.mpr h6
  have e7 : (t == "analyze") = false := beq_eq_false_iff_ne.mpr h7
  have e8 : (t == "stats") = false := beq_eq_false_iff_ne.mpr h8
  have e9 : (t == "chart") = false := beq_eq_false_iff_ne.mpr h9
  simp [routeTask, skill_map, List.lookup, e1, e2, e3, e4, e5, e6, e7, e8, e9]

/-- C5 witness: the router evaluated on a mapped and on an unmapped task
type. -/
theorem c5_skill_router_witness :
    routeTask ("summarize") = "worker-summarizer" ∧
    routeTask ("quantum-audit") = "worker-summarizer" :=
  ⟨c5_skill_router.1.1, c5_skill_router.2 "quantum-audit" (by decide)⟩

/-- C4 counterexample: with the seeded log (3 messages, 3 transactions),
querying with limit 0 returns the whole log — 3 entries, not the
`min(K, 0) = 0` entries the claim requires; the claim as stated is false at
`L = 0`. -/
theorem c4_counterexample :
    (getMessages initState 0).1 = initState.messages ∧
    (getMessages initState 0).1.length = 3 ∧
    (getTransactions initState 0).1.length = 3 ∧
    (3 : Nat) ≠ min 3 0 := by
  refine ⟨pySliceFrom_zero _, rfl, rfl, by decide⟩

/-- C4 (amended): the recent-messages and recent-transactions queries return,
for a positive limit `L`, the last `min L K` entries in insertion order
(dropping `K - min L K` from the front); but a limit of 0 returns the whole
log (Python `xs[-0:] = xs`), and a negative limit `-n` drops the first
`min n K` entries instead of behaving like 0. -/
theorem c4_amended :
    ∀ (s : EconomyState) (L : Int),
      (0 < L →
        (getMessages s L).1 =
          s.messages.drop (s.messages.length - min L.toNat s.messages.length) ∧
        (getTransactions s L).1 =
          s.transactions.drop
            (s.transactions.length - min L.toNat s.transactions.length)) ∧
      (L = 0 →
        (getMessages s L).1 = s.messages ∧
        (getTransactions s L).1 = s.transactions) ∧
      (L < 0 →
        (getMessages s L).1 =
          s.messages.drop (min (-L).toNat s.messages.length) ∧
        (getTransactions s L).1 =
          s.transactions.drop (min (-L).toNat s.transactions.length)) := by
  intro s L
  refine ⟨fun hL => ?_, fun hL => ?_, fun hL => ?_⟩
  · constructor
    · show pySliceFrom s.messages (-L) = _
      rw [show -L = -(L.toNat : Int) by omega]
      exact pySliceFrom_neg _ _ (by omega)
    · show pySliceFrom s.transactions (-L) = _
      rw [show -L = -(L.toNat : Int) by omega]
      exact pySliceFrom_neg _ _ (by omega)
  · subst hL
    exact ⟨pySliceFrom_zero _, pySliceFrom_zero _⟩
  · constructor
    · show pySliceFrom s.messages (-L) = _
      exact pySliceFrom_pos _ _ (by omega)
    · show pySliceFrom s.transactions (-L) = _
      exact pySliceFrom_pos _ _ (by omega)

/-- C4 witness: the amended query law evaluated on the seeded state with
limit 2: the last two of the three seed messages and transactions are
returned. -/
theorem c4_amended_witness :
    (0 : Int) < 2 ∧
    (getMessages initState 2).1 =
      initState.messages.drop
        (initState.messages.length - min (2 : Int).toNat initState.messages.length) ∧
    (getTransactions initState 2).1 =
      initState.transactions.drop
        (initState.transactions.length -
          min (2 : Int).toNat initState.transactions.length) := by
  refine ⟨by norm_num, ((c4_amended initState 2).1 (by norm_num)).1,
    ((c4_amended initState 2).1 (by norm_num)).2⟩

/-- C7: `run_demo` from any state returns exactly 3 receipts, their summed
cost is 0.5 + 1.0 + 0.75 = 2.25, and the completed-tasks counter rises by
exactly 3. -/
theorem c7_run_demo :
    ∀ (e1 e2 e3 : Env) (s : EconomyState),
      (runDemo e1 e2 e3 s).1.results.length = 3 ∧
      (runDemo e1 e2 e3 s).1.tasks_executed = 3 ∧
      (runDemo e1 e2 e3 s).1.total_hbar_spent = 2.25 ∧
      (runDemo e1 e2 e3 s).2.tasks_completed = s.tasks_completed + 3 := by
  intro e1 e2 e3 s
  refine ⟨rfl, rfl, ?_, rfl⟩
  show demoTask1.budget_hbar + demoTask2.budget_hbar + demoTask3.budget_hbar
    = 2.25
  norm_num [demoTask1, demoTask2, demoTask3]

/-- Updating the first match of `p` by a `p`-preserving function moves the
image of the found element into `find?`'s result. -/
theorem find?_updateFirst (p : Agent → Bool) (f : Agent → Agent)
    (hf : ∀ x, p (f x) = p x) (l : List Agent) (a : Agent)
    (h : l.find? p = some a) :
    (updateFirst p f l).find? p = some (f a) := by
  induction l with
  | nil => simp at h
  | cons x xs ih =>
    by_cases hx : p x
    · rw [List.find?_cons_of_pos _ hx] at h
      obtain rfl : x = a := by simpa using h
      unfold updateFirst
      rw [if_pos hx, List.find?_cons_of_pos _ (by rw [hf]; exact hx)]
    · rw [List.find?_cons_of_neg _ hx] at h
      unfold updateFirst
      rw [if_neg hx, List.find?_cons_of_neg _ hx]
      exact ih h

/-- C6: a submission with task type summarize and a valid budget B yields a
receipt with status completed, the summarizer worker's display name as
`assigned_to`, cost exactly B, and grows the transaction and message logs by
exactly one entry each. -/
theorem c6_summarize_example :
    ∀ (s : EconomyState) (env : Env) (req : TaskRequest) (a : Agent),
      req.task_type = "summarize" →
      0 ≤ req.budget_hbar →
      s.agents.find? (fun x => x.agent_id == "worker-summarizer") = some a →
      (submit req env s).1.status = "completed" ∧
      (submit req env s).1.assigned_to = a.name ∧
      (submit req env s).1.cost_hbar = req.budget_hbar ∧
      (submit req env s).2.transactions.length = s.transactions.length + 1 ∧
      (submit req env s).2.messages.length = s.messages.length + 1 := by
  intro s env req a htype hb hfind
  refine ⟨submit_receipt_status .., ?_, submit_receipt_cost .., ?_, ?_⟩
  · rw [submit_receipt_assigned, htype]
    show (lookupWorker
      (updateWorker s.agents ("worker-summarizer") req.budget_hbar)
      ("worker-summarizer")).name = a.name
    unfold updateWorker
    rw [if_pos (by rw [hfind]; rfl)]
    unfold lookupWorker
    rw [find?_updateFirst (fun x => x.agent_id == "worker-summarizer")
      (bumpWorker req.budget_hbar) (fun x => rfl) _ _ hfind]
    rfl
  · rw [submit_state_transactions]
    simp
  · rw [submit_state_messages]
    simp

/-- C6 witness: the spec's example request (summarize, payload The quick brown
fox, budget 0.5) against the seeded state. -/
theorem c6_summarize_example_witness :
    req0.task_type = "summarize" ∧
    (0 : ℚ) ≤ req0.budget_hbar ∧
    (submit req0 env0 initState).1.status = "completed" ∧
    (submit req0 env0 initState).1.assigned_to = "Summarizer Worker" ∧
    (submit req0 env0 initState).1.cost_hbar = 0.5 ∧
    (submit req0 env0 initState).2.transactions.length = 4 ∧
    (submit req0 env0 initState).2.messages.length = 4 := by
  have h := c6_summarize_example initState env0 req0 summarizerSeed rfl
    (by norm_num [req0]) rfl
  exact ⟨rfl, by norm_num [req0], h.1, h.2.1.trans rfl, h.2.2.1,
    (h.2.2.2.1).trans rfl, (h.2.2.2.2).trans rfl⟩

/-- C9: building a snapshot is a pure read: the state is unchanged, and the
returned stats are consistent with the views taken in the same call — the
completed-tasks total and settled value are the counters, the busy-agent
count is the number of busy agents in the returned agent list, the total
agent count is its length, and the message and transaction views are the last
min(50, K) and min(20, K) log entries in insertion order. -/
theorem c9_snapshot_pure_read :
    ∀ (s : EconomyState) (now : String),
      (economySnapshot now s).2 = s ∧
      (economySnapshot now s).1.agents = s.agents ∧
      (economySnapshot now s).1.stats.tasks_completed = s.tasks_completed ∧
      (economySnapshot now s).1.stats.total_hbar_settled =
        round4 s.total_hbar_settled ∧
      (economySnapshot now s).1.stats.total_agents =
        (economySnapshot now s).1.agents.length ∧
      (economySnapshot now s).1.stats.active_agents =
        ((economySnapshot now s).1.agents.filter
          (fun a => a.status == "busy")).length ∧
      (economySnapshot now s).1.messages =
        s.messages.drop (s.messages.length - min 50 s.messages.length) ∧
      (economySnapshot now s).1.transactions =
        s.transactions.drop
          (s.transactions.length - min 20 s.transactions.length) := by
  intro s now
  refine ⟨rfl, rfl, rfl, rfl, rfl, rfl, ?_, ?_⟩
  · exact pySliceFrom_neg s.messages 50 (by norm_num)
  · exact pySliceFrom_neg s.transactions 20 (by norm_num)

/-- C1 counterexample: submitting a task with budget −1 does not fail and does
mutate state — the returned receipt reports status completed and the
completed-tasks counter moves from 798 to 799, so the operation neither
raises an InvalidRequest error nor leaves the state unchanged. -/
theorem c1_counterexample :
    negReq.budget_hbar < 0 ∧
    (submit negReq env0 initState).1.status = "completed" ∧
    (submit negReq env0 initState).2.tasks_completed = 799 ∧
    initState.tasks_completed = 798 ∧
    (submit negReq env0 initState).2.tasks_completed ≠
      initState.tasks_completed := by
  refine ⟨by norm_num [negReq], rfl, rfl, rfl, by decide⟩

/-- C1 (amended): the code performs no budget validation at all — a
submission with a negative budget is processed exactly like any other: it
returns a receipt with status completed and cost equal to the negative
budget, increments the completed-tasks counter, adds the negative budget into
the settled-value counter (rounded), and appends one transaction and one
message. -/
theorem c1_amended :
    ∀ (s : EconomyState) (env : Env) (req : TaskRequest),
      req.budget_hbar < 0 →
      (submit req env s).1.status = "completed" ∧
      (submit req env s).1.cost_hbar = req.budget_hbar ∧
      (submit req env s).2.tasks_completed = s.tasks_completed + 1 ∧
      (submit req env s).2.total_hbar_settled =
        round4 (s.total_hbar_settled + req.budget_hbar) ∧
      (submit req env s).2.transactions.length = s.transactions.length + 1 ∧
      (submit req env s).2.messages.length = s.messages.length + 1 := by
  intro s env req hneg
  refine ⟨rfl, rfl, rfl, rfl, ?_, ?_⟩
  · rw [submit_state_transactions]
    simp
  · rw [submit_state_messages]
    simp

/-- C1 amended witness: the negative-budget submission evaluated on the
seeded state. -/
theorem c1_amended_witness :
    negReq.budget_hbar < 0 ∧
    (submit negReq env0 initState).1.status = "completed" ∧
    (submit negReq env0 initState).2.tasks_completed =
      initState.tasks_completed + 1 ∧
    (submit negReq env0 initState).2.transactions.length =
      initState.transactions.length + 1 := by
  have h := c1_amended initState env0 negReq (by norm_num [negReq])
  exact ⟨by norm_num [negReq], h.1, h.2.2.1, h.2.2.2.2.1⟩

/-- `round4` fixes any value that is already an exact 4-decimal quantity. -/
theorem round4_eq_self_of_grid (q : ℚ) (m : ℤ) (h : q = (m : ℚ) / 10000) :
    round4 q = q := by
  rw [h, round4_grid]

/-- Appending one transaction folds one rounded addition onto the running
sum. -/
theorem runningRoundSum_append (txs : List Transaction) (t : Transaction) :
    runningRoundSum (txs ++ [t]) =
      round4 (runningRoundSum txs + t.amount_hbar) := by
  simp [runningRoundSum, List.foldl_append]

/-- The seeded settled-value counter: 0.5 + 1.0 + 0.75 = 2.25. -/
theorem initState_total : initState.total_hbar_settled = 2.25 := by
  show (TRANSACTIONS.map (fun t => t.amount_hbar)).sum = 2.25
  simp [TRANSACTIONS]
  norm_num

/-- The seeded counter agrees with the rounded running sum of the seeded
transaction log: every partial sum is an exact 4-decimal value. -/
theorem initState_running :
    initState.total_hbar_settled = runningRoundSum initState.transactions := by
  show initState.total_hbar_settled = runningRoundSum TRANSACTIONS
  have e1 : round4 ((0 : ℚ) + 0.5) = 0 + 0.5 :=
    round4_eq_self_of_grid _ 5000 (by norm_num)
  have e2 : round4 ((0 : ℚ) + 0.5 + 1.0) = 0 + 0.5 + 1.0 :=
    round4_eq_self_of_grid _ 15000 (by norm_num)
  have e3 : round4 ((0 : ℚ) + 0.5 + 1.0 + 0.75) = 0 + 0.5 + 1.0 + 0.75 :=
    round4_eq_self_of_grid _ 22500 (by norm_num)
  show initState.total_hbar_settled =
    round4 (round4 (round4 ((0 : ℚ) + 0.5) + 1.0) + 0.75)
  rw [e1, e2, e3, initState_total]
  norm_num

/-- The state after any sequence of submissions: the completed-tasks counter
grows by the number of submissions, the settled-value counter is the rounded
running sum of the submitted budgets over its starting value, and the
counter's agreement with the rounded running sum of the transaction log is
preserved. -/
theorem submitMany_spec (reqs : List (TaskRequest × Env)) :
    ∀ s : EconomyState,
      (submitMany reqs s).tasks_completed = s.tasks_completed + reqs.length ∧
      (submitMany reqs s).total_hbar_settled =
        reqs.foldl (fun acc p => round4 (acc + p.1.budget_hbar))
          s.total_hbar_settled ∧
      (s.total_hbar_settled = runningRoundSum s.transactions →
        (submitMany reqs s).total_hbar_settled =
          runningRoundSum (submitMany reqs s).transactions) := by
  induction reqs with
  | nil =>
    intro s
    exact ⟨by simp [submitMany], rfl, fun h => h⟩
  | cons p rest ih =>
    intro s
    have hstep : submitMany (p :: rest) s =
      submitMany rest (submit p.1 p.2 s).2 := rfl
    obtain ⟨iht, ihtot, ihinv⟩ := ih (submit p.1 p.2 s).2
    refine ⟨?_, ?_, ?_⟩
    · rw [hstep, iht, submit_state_tasks, List.length_cons]
      omega
    · rw [hstep, ihtot, submit_state_total, List.foldl_cons]
    · intro h
      rw [hstep]
      apply ihinv
      rw [submit_state_total, submit_state_transactions,
        runningRoundSum_append, h]

/-- C2 (amended): starting from the seeded state, after N submissions the
completed-tasks counter equals its seed value plus N, and the settled-value
counter equals the rounded running sum of the submitted budgets folded over
the seed value — rounding after each addition, the discipline the code
applies — which always equals the rounded running sum of all appended
transaction amounts. (It can differ from the seed plus the budget total
rounded once, see the counterexample.) -/
theorem c2_amended :
    ∀ reqs : List (TaskRequest × Env),
      (submitMany reqs initState).tasks_completed =
        initState.tasks_completed + reqs.length ∧
      (submitMany reqs initState).total_hbar_settled =
        reqs.foldl (fun acc p => round4 (acc + p.1.budget_hbar))
          initState.total_hbar_settled ∧
      (submitMany reqs initState).total_hbar_settled =
        runningRoundSum (submitMany reqs initState).transactions := by
  intro reqs
  obtain ⟨h1, h2, h3⟩ := submitMany_spec reqs initState
  exact ⟨h1, h2, h3 initState_running⟩

/-- C2 counterexample: two valid submissions of budget 0.00006 from the
seeded state leave the settled-value counter at 2.2502 (incremental
rounding: 2.25 → 2.2501 → 2.2502), while the claimed value — the seed plus
the budget sum, rounded to 4 digits — is round4(2.25012) = 2.2501; rounding
the sum before adding gives 2.2501 as well. The claimed equality is false. -/
theorem c2_counterexample :
    (0 : ℚ) ≤ smallReq.budget_hbar ∧
    (submitMany [(smallReq, env0), (smallReq, env0)]
      initState).total_hbar_settled = 2.2502 ∧
    round4 (initState.total_hbar_settled +
      (smallReq.budget_hbar + smallReq.budget_hbar)) = 2.2501 ∧
    initState.total_hbar_settled +
      round4 (smallReq.budget_hbar + smallReq.budget_hbar) = 2.2501 ∧
    (2.2502 : ℚ) ≠ 2.2501 := by
  have h1 : round4 (2.25006 : ℚ) = 2.2501 := by
    rw [round4_of_gt 2.25006 22500 (by norm_num) (by norm_num)]
    norm_num
  have h2 : round4 (2.25016 : ℚ) = 2.2502 := by
    rw [round4_of_gt 2.25016 22501 (by norm_num) (by norm_num)]
    norm_num
  have h3 : round4 (2.25012 : ℚ) = 2.2501 := by
    rw [round4_of_lt 2.25012 22501 (by norm_num) (by norm_num)]
    norm_num
  have h4 : round4 (0.00012 : ℚ) = 0.0001 := by
    rw [round4_of_lt 0.00012 1 (by norm_num) (by norm_num)]
    norm_num
  refine ⟨by norm_num [smallReq], ?_, ?_, ?_, by norm_num⟩
  · have e : (submitMany [(smallReq, env0), (smallReq, env0)]
        initState).total_hbar_settled =
        round4 (round4 (initState.total_hbar_settled + smallReq.budget_hbar)
          + smallReq.budget_hbar) := rfl
    rw [e, initState_total,
      show (2.25 : ℚ) + smallReq.budget_hbar = 2.25006 by norm_num [smallReq],
      h1,
      show (2.2501 : ℚ) + smallReq.budget_hbar = 2.25016 by
        norm_num [smallReq],
      h2]
  · rw [initState_total,
      show (2.25 : ℚ) + (smallReq.budget_hbar + smallReq.budget_hbar)
        = 2.25012 by norm_num [smallReq],
      h3]
  · rw [initState_total,
      show smallReq.budget_hbar + smallReq.budget_hbar = (0.00012 : ℚ) by
        norm_num [smallReq],
      h4]
    norm_num

/-- C3: the transaction reference id is a function of the wall-clock second
alone, so two submissions falling in the same second — any requests, any
state — receive the SAME reference id, contradicting the required
uniqueness of reference ids within the process. -/
theorem c3_txid_collision :
    ∀ (s : EconomyState) (req1 req2 : TaskRequest) (env1 env2 : Env),
      env1.ts = env2.ts →
      (submit req1 env1 s).1.tx_id =
        (submit req2 env2 (submit req1 env1 s).2).1.tx_id := by
  intro s req1 req2 env1 env2 h
  rw [submit_receipt_txid, submit_receipt_txid, h]

/-- C3 witness: two concrete submissions in the same second both get
reference id 0.0.5483526@1760000000.000000000. -/
theorem c3_txid_collision_witness :
    env0.ts = env0.ts ∧
    (submit req0 env0 initState).1.tx_id =
      (submit negReq env0 (submit req0 env0 initState).2).1.tx_id ∧
    (submit req0 env0 initState).1.tx_id =
      "0.0.5483526@1760000000.000000000" :=
  ⟨rfl, c3_txid_collision initState req0 negReq env0 env0 rfl, rfl⟩

/-- C10: the receipt and the records appended by the same call agree — the
appended transaction repeats the receipt's task id, the resolved worker id,
the cost, the reference id and the duration; the appended message carries the
same task id and reference id and the result text truncated to its first 80
characters; and the duration, a randint(280, 650) draw, lies in [280, 650]. -/
theorem c10_receipt_record_agreement :
    ∀ (s : EconomyState) (req : TaskRequest) (env : Env),
      280 ≤ env.duration → env.duration ≤ 650 →
      ∃ (tx : Transaction) (msg : Message),
        (submit req env s).2.transactions = s.transactions ++ [tx] ∧
        (submit req env s).2.messages = s.messages ++ [msg] ∧
        tx.task_id = (submit req env s).1.task_id ∧
        tx.worker_id = routeTask req.task_type ∧
        tx.amount_hbar = (submit req env s).1.cost_hbar ∧
        tx.tx_id = (submit req env s).1.tx_id ∧
        tx.duration_ms = (submit req env s).1.duration_ms ∧
        msg.tx_id = (submit req env s).1.tx_id ∧
        msg.payload.lookup "task_id" =
          some (.str (submit req env s).1.task_id) ∧
        msg.payload.lookup "result" =
          some (.str ((submit req env s).1.result.take 80)) ∧
        280 ≤ (submit req env s).1.duration_ms ∧
        (submit req env s).1.duration_ms ≤ 650 := by
  intro s req env hlo hhi
  refine ⟨_, _, submit_state_transactions req env s,
    submit_state_messages req env s, rfl, rfl, rfl, rfl, rfl, rfl, rfl, rfl,
    hlo, hhi⟩

/-- C10 witness: the agreement evaluated at a concrete submission with a
concrete duration draw of 400 ms. -/
theorem c10_receipt_record_agreement_witness :
    280 ≤ env0.duration ∧ env0.duration ≤ 650 ∧
    ∃ (tx : Transaction) (msg : Message),
      (submit req0 env0 initState).2.transactions =
        initState.transactions ++ [tx] ∧
      (submit req0 env0 initState).2.messages =
        initState.messages ++ [msg] ∧
      tx.task_id = (submit req0 env0 initState).1.task_id ∧
      tx.worker_id = routeTask req0.task_type ∧
      tx.amount_hbar = (submit req0 env0 initState).1.cost_hbar ∧
      tx.tx_id = (submit req0 env0 initState).1.tx_id ∧
      tx.duration_ms = (submit req0 env0 initState).1.duration_ms ∧
      msg.tx_id = (submit req0 env0 initState).1.tx_id ∧
      msg.payload.lookup "task_id" =
        some (.str (submit req0 env0 initState).1.task_id) ∧
      msg.payload.lookup "result" =
        some (.str ((submit req0 env0 initState).1.result.take 80)) ∧
      280 ≤ (submit req0 env0 initState).1.duration_ms ∧
      (submit req0 env0 initState).1.duration_ms ≤ 650 :=
  ⟨by norm_num [env0], by norm_num [env0],
    c10_receipt_record_agreement initState req0 env0 (by norm_num [env0])
      (by norm_num [env0])⟩

/-- `round4` always produces an exact 4-decimal value. -/
theorem round4_isGrid (q : ℚ) : IsGrid4 (round4 q) :=
  ⟨_, rfl⟩

/-- Updating the first match preserves the list length. -/
theorem updateFirst_length (p : Agent → Bool) (f : Agent → Agent)
    (l : List Agent) : (updateFirst p f l).length = l.length := by
  induction l with
  | nil => rfl
  | cons x xs ih =>
    unfold updateFirst
    split
    · rfl
    · simpa using ih

/-- Each position of an updated list holds either the old element or its
image under `f`. -/
theorem updateFirst_getElem? (p : Agent → Bool) (f : Agent → Agent) :
    ∀ (l : List Agent) (i : Nat) (a : Agent), l[i]? = some a →
      (updateFirst p f l)[i]? = some a ∨
      (updateFirst p f l)[i]? = some (f a)
  | [], i, a, h => by simp at h
  | x :: xs, 0, a, h => by
    obtain rfl : x = a := by simpa using h
    unfold updateFirst
    by_cases hx : p x
    · rw [if_pos hx]
      right
      simp
    · rw [if_neg hx]
      left
      simp
  | x :: xs, i + 1, a, h => by
    have h' : xs[i]? = some a := by simpa using h
    unfold updateFirst
    by_cases hx : p x
    · rw [if_pos hx]
      left
      simpa using h'
    · rw [if_neg hx]
      rcases updateFirst_getElem? p f xs i a h' with hc | hc
      · left
        simpa using hc
      · right
        simpa using hc

/-- The in-place worker update preserves the registry length. -/
theorem updateWorker_length (ags : List Agent) (wid : String) (b : ℚ) :
    (updateWorker ags wid b).length = ags.length := by
  unfold updateWorker
  split
  · exact updateFirst_length _ _ ags
  · simp

/-- Each position of the updated registry holds either the old agent or its
bumped version. -/
theorem updateWorker_getElem? (ags : List Agent) (wid : String) (b : ℚ)
    (i : Nat) (a : Agent) (h : ags[i]? = some a) :
    (updateWorker ags wid b)[i]? = some a ∨
    (updateWorker ags wid b)[i]? = some (bumpWorker b a) := by
  unfold updateWorker
  split
  · exact updateFirst_getElem? _ _ ags i a h
  · by_cases hi : 2 = i
    · subst hi
      right
      have hlen : 2 < ags.length := (List.getElem?_eq_some.mp h).1
      have hgd : ags.getD 2 default = a := by
        rw [List.getD_eq_getElem?_getD, h]
        rfl
      rw [hgd]
      exact List.getElem?_set_self hlen
    · left
      rw [List.getElem?_set_ne hi]
      exact h

/-- The worker update never changes the sequence of agent ids. -/
theorem updateWorker_ids (ags : List Agent) (wid : String) (b : ℚ) :
    ((updateWorker ags wid b).map fun a => a.agent_id) =
      ags.map fun a => a.agent_id := by
  apply List.ext_getElem?
  intro i
  rw [List.getElem?_map, List.getElem?_map]
  cases hi : ags[i]? with
  | none =>
    have hlen : ags.length ≤ i := List.getElem?_eq_none_iff.mp hi
    have : (updateWorker ags wid b)[i]? = none := by
      apply List.getElem?_eq_none
      rw [updateWorker_length]
      exact hlen
    rw [this]
  | some a =>
    rcases updateWorker_getElem? ags wid b i a hi with hc | hc
    · rw [hc]
    · rw [hc]
      rfl

/-- `AgentsEvolve` is reflexive. -/
theorem agentsEvolve_refl (P : Prop) (l : List Agent) : AgentsEvolve P l l := by
  refine ⟨rfl, ?_⟩
  intro i a a' ha ha'
  rw [ha] at ha'
  obtain rfl : a = a' := by simpa using ha'
  exact ⟨rfl, le_refl _, fun h => h, fun _ _ => le_refl _⟩

/-- `AgentsEvolve` composes across successive operations. -/
theorem agentsEvolve_trans (P : Prop) (l1 l2 l3 : List Agent)
    (h12 : AgentsEvolve P l1 l2) (h23 : AgentsEvolve P l2 l3) :
    AgentsEvolve P l1 l3 := by
  obtain ⟨hlen12, hpt12⟩ := h12
  obtain ⟨hlen23, hpt23⟩ := h23
  refine ⟨hlen23.trans hlen12, ?_⟩
  intro i a a' ha ha'
  have hi : i < l2.length := by
    rw [hlen12]
    exact (List.getElem?_eq_some.mp ha).1
  obtain ⟨m, hm⟩ : ∃ m, l2[i]? = some m := ⟨l2[i], List.getElem?_eq_getElem hi⟩
  obtain ⟨hid1, ht1, hg1, he1⟩ := hpt12 i a m ha hm
  obtain ⟨hid2, ht2, hg2, he2⟩ := hpt23 i m a' hm ha'
  exact ⟨hid2.trans hid1, ht1.trans ht2, fun h => hg2 (hg1 h),
    fun hP hg => (he1 hP hg).trans (he2 hP (hg1 hg))⟩

/-- One worker update evolves the registry; earnings grow whenever the side
condition guarantees a non-negative budget. -/
theorem agentsEvolve_updateWorker (P : Prop) (ags : List Agent)
    (wid : String) (b : ℚ) (hb : P → 0 ≤ b) :
    AgentsEvolve P ags (updateWorker ags wid b) := by
  refine ⟨updateWorker_length ags wid b, ?_⟩
  intro i a a' ha ha'
  rcases updateWorker_getElem? ags wid b i a ha with hc | hc
  · rw [hc] at ha'
    obtain rfl : a = a' := by simpa using ha'
    exact ⟨rfl, le_refl _, fun h => h, fun _ _ => le_refl _⟩
  · rw [hc] at ha'
    obtain rfl : bumpWorker b a = a' := by simpa using ha'
    refine ⟨rfl, Nat.le_succ _, fun _ => round4_isGrid _, ?_⟩
    intro hP hg
    obtain ⟨m, hm⟩ := hg
    show a.earnings_hbar ≤ round4 (a.earnings_hbar + b)
    rw [hm]
    exact round4_ge_grid m _ (by linarith [hb hP])

/-- One submission evolves the registry under the same side condition. -/
theorem submit_agentsEvolve (P : Prop) (req : TaskRequest) (env : Env)
    (s : EconomyState) (hb : P → 0 ≤ req.budget_hbar) :
    AgentsEvolve P s.agents (submit req env s).2.agents := by
  rw [submit_state_agents]
  exact agentsEvolve_updateWorker P s.agents _ _ hb

/-- C8 counterexample: a submission with budget −1 routed to the summarizer
decreases that agent's earnings from 44.5 to 43.5, so earnings are not
monotonically non-decreasing across every operation as claimed. -/
theorem c8_counterexample :
    negReq.budget_hbar < 0 ∧
    initState.agents[2]? = some summarizerSeed ∧
    ((Op.submitTask negReq env0).apply initState).agents[2]? =
      some (bumpWorker negReq.budget_hbar summarizerSeed) ∧
    summarizerSeed.earnings_hbar = 44.5 ∧
    (bumpWorker negReq.budget_hbar summarizerSeed).earnings_hbar = 43.5 ∧
    ¬ (44.5 : ℚ) ≤ 43.5 := by
  refine ⟨by norm_num [negReq], rfl, rfl, rfl, ?_, by norm_num⟩
  show round4 (summarizerSeed.earnings_hbar + negReq.budget_hbar) = 43.5
  rw [show summarizerSeed.earnings_hbar = (44.5 : ℚ) from rfl,
    show negReq.budget_hbar = (-1 : ℚ) from rfl,
    round4_eq_self_of_grid _ 435000 (by norm_num)]
  norm_num

/-- C8 (amended): across every operation the registry keeps its length and
its agent-id sequence (so id uniqueness is preserved for the registry's
lifetime, and the seeded ids are unique), and every agent's tasks-completed
counter is non-decreasing; the agent's earnings are non-decreasing provided
the operation's budgets are non-negative — a negative submitted budget
decreases the assigned worker's earnings (see the counterexample). Earnings
being exact 4-decimal values (true of the seed and preserved by every
operation) is carried as part of the evolution invariant. -/
theorem c8_amended :
    ∀ (op : Op) (s : EconomyState),
      AgentsEvolve (∀ b ∈ op.budgets, 0 ≤ b) s.agents (op.apply s).agents ∧
      ((op.apply s).agents.map fun a => a.agent_id) =
        (s.agents.map fun a => a.agent_id) ∧
      ((s.agents.map fun a => a.agent_id).Nodup →
        ((op.apply s).agents.map fun a => a.agent_id).Nodup) ∧
      (initState.agents.map fun a => a.agent_id).Nodup ∧
      (∀ a ∈ initState.agents, IsGrid4 a.earnings_hbar) := by
  intro op s
  have hid : ((op.apply s).agents.map fun a => a.agent_id) =
      (s.agents.map fun a => a.agent_id) := by
    cases op with
    | submitTask req env =>
      show (((submit req env s).2.agents).map fun a => a.agent_id) = _
      rw [submit_state_agents, updateWorker_ids]
    | demoRun e1 e2 e3 =>
      show (((submit demoTask3 e3
        (submit demoTask2 e2 (submit demoTask1 e1 s).2).2).2.agents).map
          fun a => a.agent_id) = _
      simp only [submit_state_agents, updateWorker_ids]
  have hev : AgentsEvolve (∀ b ∈ op.budgets, 0 ≤ b) s.agents
      (op.apply s).agents := by
    cases op with
    | submitTask req env =>
      apply submit_agentsEvolve
      intro hP
      exact hP req.budget_hbar (by simp [Op.budgets])
    | demoRun e1 e2 e3 =>
      show AgentsEvolve _ s.agents (submit demoTask3 e3
        (submit demoTask2 e2 (submit demoTask1 e1 s).2).2).2.agents
      refine agentsEvolve_trans _ _ _ _
        (submit_agentsEvolve _ _ _ _ ?_)
        (agentsEvolve_trans _ _ _ _
          (submit_agentsEvolve _ _ _ _ ?_)
          (submit_agentsEvolve _ _ _ _ ?_))
      all_goals intro _
      · norm_num [demoTask1]
      · norm_num [demoTask2]
      · norm_num [demoTask3]
  refine ⟨hev, hid, fun h => by rw [hid]; exact h, by decide, ?_⟩
  intro a ha
  have ha' : a ∈ AGENTS := ha
  simp only [AGENTS, List.mem_cons, List.not_mem_nil, or_false] at ha'
  rcases ha' with rfl | rfl | rfl | rfl | rfl | rfl
  · exact ⟨284000, by norm_num⟩
  · exact ⟨551000, by norm_num⟩
  · exact ⟨445000, by norm_num⟩
  · exact ⟨670000, by norm_num⟩
  · exact ⟨405000, by norm_num⟩
  · exact ⟨154000, by norm_num⟩

/-- C8 amended witness: applying one valid submission (budget 0.5) to the
seeded state: the summarizer's tasks-completed counter and earnings both grow
(89 → 90, 44.5 → 45.0). -/
theorem c8_amended_witness :
    summarizerSeed.tasks_completed ≤
      (bumpWorker req0.budget_hbar summarizerSeed).tasks_completed ∧
    summarizerSeed.earnings_hbar ≤
      (bumpWorker req0.budget_hbar summarizerSeed).earnings_hbar := by
  have h := c8_amended (Op.submitTask req0 env0) initState
  have h2 : ((Op.submitTask req0 env0).apply initState).agents[2]? =
      some (bumpWorker req0.budget_hbar summarizerSeed) := rfl
  have hpt := h.1.2 2 summarizerSeed
    (bumpWorker req0.budget_hbar summarizerSeed) rfl h2
  refine ⟨hpt.2.1, hpt.2.2.2 ?_ ?_⟩
  · intro b hb
    simp only [Op.budgets, List.mem_singleton] at hb
    rw [hb]
    norm_num [req0]
  · exact ⟨445000, by
      rw [show summarizerSeed.earnings_hbar = (44.5 : ℚ) from rfl]
      norm_num⟩
